import Mathlib

/-!
# A shallow embedding of the Graphite C bindings

This file embeds the C-linkage entry points of `skia-bindings/src/graphite.cpp`
and `skia-bindings/src/dawn.cpp` as pure Lean functions, and proves the
specified properties about them.

Modelling conventions:
* native platform handles (CFTypeRef, VkImage, wgpu devices, ...) are `Nat` ids;
* the platform reference-count environment (`CFRetain`/`CFRelease`) is an
  explicit `CFWorld` value threaded through operations that touch it;
* caller-provided raw storage for a value descriptor is a `Cell`: either
  unconstructed (`Cell.uninit`) or holding a constructed value (`Cell.init v`);
  an operation whose C counterpart has undefined behavior on unconstructed
  storage returns `none` there;
* heap pointers returned by factory functions (`...release()`) are `Option`
  values: `none` is the null pointer;
* the Skia library functions called by the bindings (`ContextFactory::Make*`,
  `Context::makeRecorder`, `Recorder::snap`, `Context::insertRecording`,
  `Context::submit`, `GrDirectContext::MakeDawn`, the descriptor factories and
  assignment operators) are not part of the bound sources; they are modelled
  from the specification's contracts and marked `Modelled from the spec:`.
-/

set_option linter.unusedVariables false

namespace Graphite

/-- A native platform handle (CFTypeRef, VkImage, device, queue, texture ...),
modelled as an id. -/
abbrev Handle := Nat

/-- The platform reference-count environment: how many references are
outstanding on each native handle. -/
structure CFWorld where
  refCount : Handle → Int

/-- The `CFRetain` call increments the platform reference count of a handle. -/
def CFRetain (h : Handle) (w : CFWorld) : CFWorld :=
  CFWorld.mk (fun x => if x = h then w.refCount x + 1 else w.refCount x)

/-- The `CFRelease` call decrements the platform reference count of a handle. -/
def CFRelease (h : Handle) (w : CFWorld) : CFWorld :=
  CFWorld.mk (fun x => if x = h then w.refCount x - 1 else w.refCount x)

/-- Release a possibly-absent stored handle (the `sk_cfp` finalizer releases
the stored handle when there is one, and does nothing when empty). -/
def releaseOpt (h : Option Handle) (w : CFWorld) : CFWorld :=
  match h with
  | none => w
  | some x => CFRelease x w

/-- The GPU backend kinds selectable at build time. -/
inductive Backend where
  | metal
  | vulkan
  | dawn
deriving DecidableEq, Repr

/-- skgpu::graphite::TextureInfo — a backend-specific texture descriptor
(value type). Modelled from the spec: backend kind, backend-specific payload,
a validity flag created false by default construction, and the optional native
resource the value holds. -/
structure TextureInfo where
  valid : Bool
  backend : Option Backend
  payload : Nat
  resource : Option Handle
deriving DecidableEq, Repr

/-- Modelled from the spec: a default-constructed TextureInfo is invalid. -/
def TextureInfo.default : TextureInfo :=
  { valid := false, backend := none, payload := 0, resource := none }

/-- Modelled from the spec: TextureInfo::isValid reads the validity flag. -/
def TextureInfo.isValid (self : TextureInfo) : Bool :=
  self.valid

/-- SkISize: a pair of pixel dimensions. -/
structure SkISize where
  width : Int
  height : Int
deriving DecidableEq, Repr

/-- skgpu::graphite::BackendTexture — a handle to a texture plus its
TextureInfo and pixel dimensions. Modelled from the spec data model. -/
structure BackendTexture where
  valid : Bool
  dimensions : SkISize
  info : TextureInfo
  resource : Option Handle
deriving DecidableEq, Repr

/-- Modelled from the spec: a default-constructed BackendTexture is invalid. -/
def BackendTexture.default : BackendTexture :=
  { valid := false, dimensions := SkISize.mk 0 0, info := TextureInfo.default,
    resource := none }

/-- Modelled from the spec: BackendTexture::isValid reads the validity flag. -/
def BackendTexture.isValid (self : BackendTexture) : Bool :=
  self.valid

/-- Caller-provided raw storage for a value descriptor: either not yet
constructed, or holding a constructed value. -/
inductive Cell (α : Type) where
  | uninit
  | init (value : α)
deriving DecidableEq, Repr

/-- skgpu::graphite::ContextOptions (backend-specific tunables). -/
structure ContextOptions where
  tunables : Nat
deriving DecidableEq, Repr

/-- Modelled from the spec: default-constructed ContextOptions. -/
def ContextOptions.default : ContextOptions :=
  { tunables := 0 }

/-- skgpu::graphite::RecorderOptions (backend-specific tunables). -/
structure RecorderOptions where
  tunables : Nat
deriving DecidableEq, Repr

/-- Modelled from the spec: default-constructed RecorderOptions — the backend
defaults selected when the caller passes no options. -/
def RecorderOptions.default : RecorderOptions :=
  { tunables := 0 }

/-- skgpu::graphite::Recording — an immutable snapshot of recorded commands.
The `id` distinguishes instances; `commands` is the captured batch. -/
structure Recording where
  id : Nat
  commands : List Nat
deriving DecidableEq, Repr

/-- skgpu::graphite::Recorder — a command-recording session. Modelled from the
spec: bound to its parent Context (by device handle), accumulating commands
since the last snap, with a failure flag and a fresh-id counter for the
Recordings it produces. -/
structure Recorder where
  contextDevice : Handle
  options : RecorderOptions
  failed : Bool
  commands : List Nat
  nextRecordingId : Nat
deriving DecidableEq, Repr

/-- skgpu::graphite::Context — a logical GPU device binding. Modelled from the
spec data model: backend kind, native device/queue handles, the pending-work
queue, plus environment flags (device lost, insertion rejected) that drive the
modelled failure results. `owned` lists every Recording whose ownership has
been transferred into the Context. -/
structure Context where
  backend : Backend
  device : Handle
  queue : Handle
  deviceLost : Bool
  insertFails : Bool
  pending : List Recording
  owned : List Recording
deriving DecidableEq, Repr

/-- skgpu::graphite::InsertRecordingInfo — only the recording pointer is set
by the binding; the other fields keep their defaults. -/
structure InsertRecordingInfo where
  fRecording : Option Recording := none
deriving DecidableEq, Repr

/-- skgpu::graphite::SyncToCpu — the submission sync mode. -/
inductive SyncToCpu where
  | kYes
  | kNo
deriving DecidableEq, Repr

/-- skgpu::graphite::MtlBackendContext — platform device/queue descriptor
holding retained CF handles (`sk_cfp` members, empty by default). -/
structure MtlBackendContext where
  fDevice : Option Handle
  fQueue : Option Handle
deriving DecidableEq, Repr

/-- skgpu::VulkanBackendContext — platform descriptor with nullable device and
queue handles. -/
structure VulkanBackendContext where
  fDevice : Option Handle
  fQueue : Option Handle
deriving DecidableEq, Repr

/-- skgpu::graphite::VulkanTextureInfo — the fields of the binding's
construction signature, as plain scalars. -/
structure VulkanTextureInfo where
  sampleCount : Nat
  mipmapped : Bool
  flags : Nat
  format : Nat
  imageTiling : Nat
  imageUsageFlags : Nat
  sharingMode : Nat
  aspectMask : Nat
  ycbcrConversionInfo : Nat
deriving DecidableEq, Repr

/-- skgpu::VulkanAlloc — the memory allocation record of a Vulkan image. -/
structure VulkanAlloc where
  fMemory : Handle
deriving DecidableEq, Repr

/-- GrContextOptions for the Dawn (software/default) backend factory. -/
structure GrContextOptions where
  tunables : Nat
deriving DecidableEq, Repr

/-- GrDirectContext — the context produced by the Dawn backend factory,
remembering the device it was created from and the options overload used. -/
structure GrDirectContext where
  device : Handle
  options : Option GrContextOptions
deriving DecidableEq, Repr

/-- The process-wide state of `dawn.cpp`: the static `wgpu::Device* device`
pointer (null initially) plus an allocation counter supplying fresh handles
for `new wgpu::Device()`. -/
structure DawnGlobal where
  device : Option Handle
  nextHandle : Nat
deriving DecidableEq, Repr

/-- The process start state: the static device pointer is null. -/
def DawnGlobal.initial : DawnGlobal :=
  { device := none, nextHandle := 1 }

/-! ## Modelled Skia library operations

These are the library functions the bindings call. Their implementations are
not part of the bound sources; each is modelled from the specification. -/

/-- Modelled from the spec: `TextureInfos::MakeMetal` builds a valid
Metal-backed TextureInfo from a native texture handle. -/
def TextureInfos.MakeMetal (texture : Handle) : TextureInfo :=
  { valid := true, backend := some Backend.metal, payload := texture,
    resource := none }

/-- Modelled from the spec: lift a VulkanTextureInfo into the backend-agnostic
TextureInfo (valid, Vulkan backend, format as payload). -/
def VulkanTextureInfo.toTextureInfo (self : VulkanTextureInfo) : TextureInfo :=
  { valid := true, backend := some Backend.vulkan, payload := self.format,
    resource := none }

/-- Modelled from the spec: `BackendTextures::MakeMetal` builds a valid
BackendTexture over a caller-supplied Metal texture handle. -/
def BackendTextures.MakeMetal (dimensions : SkISize) (texture : Handle) :
    BackendTexture :=
  { valid := true, dimensions := dimensions,
    info := TextureInfos.MakeMetal texture, resource := some texture }

/-- Modelled from the spec: `BackendTextures::MakeVulkan` builds a valid
BackendTexture over a caller-supplied Vulkan image. -/
def BackendTextures.MakeVulkan (dimensions : SkISize)
    (info : VulkanTextureInfo) (_layout _queueFamilyIndex : Nat)
    (image : Handle) (_alloc : VulkanAlloc) : BackendTexture :=
  { valid := true, dimensions := dimensions, info := info.toTextureInfo,
    resource := some image }

/-- Modelled from the spec: C++ copy assignment on a value descriptor first
releases any resource the old value held, then takes ownership of the new
value (no extra retain on transfer from a factory temporary). -/
def assignTextureInfo (old newV : TextureInfo) (w : CFWorld) :
    TextureInfo × CFWorld :=
  (newV, releaseOpt old.resource w)

/-- Modelled from the spec: C++ copy assignment on a BackendTexture, releasing
the old value's resource before storing the new value. -/
def assignBackendTexture (old newV : BackendTexture) (w : CFWorld) :
    BackendTexture × CFWorld :=
  (newV, releaseOpt old.resource w)

/-- A freshly created Context bound to the given backend and handles. -/
def Context.fresh (backend : Backend) (device queue : Handle) : Context :=
  { backend := backend, device := device, queue := queue, deviceLost := false,
    insertFails := false, pending := [], owned := [] }

/-- Modelled from the spec: `ContextFactory::MakeMetal` produces an owning
pointer to a new Context, or null if the backend cannot initialize; a missing
device or queue handle models a backend that cannot initialize. -/
def ContextFactory.MakeMetal (backendContext : MtlBackendContext)
    (options : ContextOptions) : Option Context :=
  match backendContext.fDevice, backendContext.fQueue with
  | some d, some q => some (Context.fresh Backend.metal d q)
  | _, _ => none

/-- Modelled from the spec: `ContextFactory::MakeVulkan`, analogous to the
Metal variant. -/
def ContextFactory.MakeVulkan (backendContext : VulkanBackendContext)
    (options : ContextOptions) : Option Context :=
  match backendContext.fDevice, backendContext.fQueue with
  | some d, some q => some (Context.fresh Backend.vulkan d q)
  | _, _ => none

/-- Modelled from the spec: `Context::makeRecorder(options)` returns an owning
pointer to a new Recorder bound to this Context; creation fails (null) when
the device is lost. -/
def Context.makeRecorderWith (self : Context) (options : RecorderOptions) :
    Option Recorder :=
  if self.deviceLost then none
  else
    some { contextDevice := self.device, options := options, failed := false,
           commands := [], nextRecordingId := 0 }

/-- Modelled from the spec: the no-options overload `Context::makeRecorder()`
selects the backend defaults. -/
def Context.makeRecorder (self : Context) : Option Recorder :=
  self.makeRecorderWith RecorderOptions.default

/-- Modelled from the spec: `Recorder::snap` returns an owning pointer to a
new Recording capturing everything recorded since the last snap (or since
creation) and resets the Recorder to Idle so it can be reused; it returns
null when the recording session has failed. -/
def Recorder.snap (self : Recorder) : Option Recording × Recorder :=
  if self.failed then
    (none, { self with commands := [] })
  else
    (some { id := self.nextRecordingId, commands := self.commands },
     { self with commands := [],
                 nextRecordingId := self.nextRecordingId + 1 })

/-- Modelled from the spec: `Context::insertRecording` takes ownership of the
Recording unconditionally and returns a success flag (false on a null
recording, a lost device, or a rejected insertion); on success the Recording
is also queued for submission. -/
def Context.insertRecording (self : Context) (info : InsertRecordingInfo) :
    Bool × Context :=
  match info.fRecording with
  | none => (false, self)
  | some rec =>
    if self.deviceLost || self.insertFails then
      (false, { self with owned := self.owned ++ [rec] })
    else
      (true, { self with owned := self.owned ++ [rec],
                         pending := self.pending ++ [rec] })

/-- Modelled from the spec: `Context::submit` flushes all queued Recordings to
the GPU and reports success as a boolean — false on submission failure (device
lost), in which case nothing is flushed. -/
def Context.submit (self : Context) (syncToCpu : SyncToCpu) : Bool × Context :=
  if self.deviceLost then (false, self)
  else (true, { self with pending := [] })

/-- Modelled from the spec: `GrDirectContext::MakeDawn(device)` — the
no-options overload of the Dawn context factory. -/
def GrDirectContext.MakeDawn (device : Handle) : Option GrDirectContext :=
  some { device := device, options := none }

/-- Modelled from the spec: `GrDirectContext::MakeDawn(device, options)` — the
options overload of the Dawn context factory. -/
def GrDirectContext.MakeDawnWithOptions (device : Handle)
    (options : GrContextOptions) : Option GrDirectContext :=
  some { device := device, options := some options }

/-! ## The C-linkage entry points, translated from the source -/

/-- Entry point `C_TextureInfo_Construct`: placement-new of a default TextureInfo into the
caller's storage. -/
def C_TextureInfo_Construct (ti : Cell TextureInfo) : Cell TextureInfo :=
  Cell.init TextureInfo.default

/-- Entry point `C_TextureInfo_Destruct`: run the finalizer, leaving the storage
unconstructed. -/
def C_TextureInfo_Destruct (ti : Cell TextureInfo) : Cell TextureInfo :=
  Cell.uninit

/-- Entry point `C_BackendTexture_Construct`: placement-new of a default BackendTexture. -/
def C_BackendTexture_Construct (bt : Cell BackendTexture) :
    Cell BackendTexture :=
  Cell.init BackendTexture.default

/-- Entry point `C_BackendTexture_Destruct`: run the finalizer. -/
def C_BackendTexture_Destruct (bt : Cell BackendTexture) :
    Cell BackendTexture :=
  Cell.uninit

/-- Entry point `C_MtlBackendContext_Construct`: placement-new of a default
MtlBackendContext, then `fDevice.reset(CFRetain(device))` and
`fQueue.reset(CFRetain(queue))` — each handle is retained once and stored. -/
def C_MtlBackendContext_Construct (device queue : Handle) (w : CFWorld) :
    MtlBackendContext × CFWorld :=
  let w1 := CFRetain device w
  let w2 := CFRetain queue w1
  ({ fDevice := some device, fQueue := some queue }, w2)

/-- Entry point `C_MtlBackendContext_Destruct`: the destructor runs the `sk_cfp`
finalizers, releasing each stored handle once (modelled from the spec: the
descriptor's destruction releases what its construction retained). -/
def C_MtlBackendContext_Destruct (context : MtlBackendContext) (w : CFWorld) :
    CFWorld :=
  releaseOpt context.fDevice (releaseOpt context.fQueue w)

/-- Entry point `C_Context_MakeMetal`: `ContextFactory::MakeMetal(*bc, *options).release()`
— the null pointer exactly when the factory result was null. -/
def C_Context_MakeMetal (backendContext : MtlBackendContext)
    (options : ContextOptions) : Option Context :=
  ContextFactory.MakeMetal backendContext options

/-- Entry point `C_Context_MakeVulkan`: the Vulkan context factory, released to a raw
pointer. -/
def C_Context_MakeVulkan (backendContext : VulkanBackendContext)
    (options : ContextOptions) : Option Context :=
  ContextFactory.MakeVulkan backendContext options

/-- Entry point `C_BackendTexture_MakeVulkan`: `*self = BackendTextures::MakeVulkan(...)`.
Assignment through the pointer requires the target to be constructed
(undefined behavior — `none` — otherwise) and overwrites it in place. -/
def C_BackendTexture_MakeVulkan (self : Cell BackendTexture)
    (dimensions : SkISize) (info : VulkanTextureInfo)
    (layout queueFamilyIndex : Nat) (image : Handle) (alloc : VulkanAlloc)
    (w : CFWorld) : Option (Cell BackendTexture × CFWorld) :=
  match self with
  | Cell.uninit => none
  | Cell.init old =>
    let p := assignBackendTexture old
      (BackendTextures.MakeVulkan dimensions info layout queueFamilyIndex
        image alloc) w
    some (Cell.init p.1, p.2)

/-- Entry point `C_TextureInfo_isValid`: `self->isValid()` on a constructed TextureInfo. -/
def C_TextureInfo_isValid (self : TextureInfo) : Bool :=
  self.isValid

/-- Entry point `C_BackendTexture_isValid`: `self->isValid()` on a constructed
BackendTexture. -/
def C_BackendTexture_isValid (self : BackendTexture) : Bool :=
  self.isValid

/-- Entry point `C_BackendTexture_info`: `new (result) TextureInfo(self->info())` —
placement-copy-construction of the stored descriptor into the caller's result
storage; `self` is read through a const pointer and left unchanged. -/
def C_BackendTexture_info (self : BackendTexture) (result : Cell TextureInfo) :
    Cell TextureInfo × BackendTexture :=
  (Cell.init self.info, self)

/-- Entry point `C_BackendTexture_dimensions`: returns `self->dimensions()`; `self` is
read through a const pointer and left unchanged. -/
def C_BackendTexture_dimensions (self : BackendTexture) :
    SkISize × BackendTexture :=
  (self.dimensions, self)

/-- Entry point `C_Context_makeRecorder`: dispatches on the nullability of the options
pointer — the null pointer selects the no-options overload (and is never
dereferenced), a non-null pointer selects the options overload. -/
def C_Context_makeRecorder (self : Context)
    (options : Option RecorderOptions) : Option Recorder :=
  match options with
  | some opts => self.makeRecorderWith opts
  | none => Context.makeRecorder self

/-- Entry point `C_Recorder_snap`: `self->snap().release()` — the snapped Recording (null
on failure) together with the mutated Recorder. -/
def C_Recorder_snap (self : Recorder) : Option Recording × Recorder :=
  Recorder.snap self

/-- Entry point `C_Context_insertRecording`: builds an InsertRecordingInfo whose
`fRecording` is the given pointer and forwards the boolean result of
`Context::insertRecording` unchanged. -/
def C_Context_insertRecording (self : Context) (recording : Recording) :
    Bool × Context :=
  Context.insertRecording self { fRecording := some recording }

/-- Entry point `C_Context_submit`: calls `self->submit(syncToCpu)` and DISCARDS the
boolean result — the C entry point returns void. -/
def C_Context_submit (self : Context) (syncToCpu : SyncToCpu) :
    Unit × Context :=
  ((), (Context.submit self syncToCpu).2)

/-- Entry point `C_TextureInfo_MakeMetal`: `*self = TextureInfos::MakeMetal(texture)` —
in-place overwrite via assignment of constructed storage. -/
def C_TextureInfo_MakeMetal (self : Cell TextureInfo) (texture : Handle)
    (w : CFWorld) : Option (Cell TextureInfo × CFWorld) :=
  match self with
  | Cell.uninit => none
  | Cell.init old =>
    let p := assignTextureInfo old (TextureInfos.MakeMetal texture) w
    some (Cell.init p.1, p.2)

/-- Entry point `C_BackendTexture_MakeMetal`:
`*self = BackendTextures::MakeMetal(*dimensions, texture)`. -/
def C_BackendTexture_MakeMetal (self : Cell BackendTexture)
    (dimensions : SkISize) (texture : Handle) (w : CFWorld) :
    Option (Cell BackendTexture × CFWorld) :=
  match self with
  | Cell.uninit => none
  | Cell.init old =>
    let p := assignBackendTexture old
      (BackendTextures.MakeMetal dimensions texture) w
    some (Cell.init p.1, p.2)

/-- Entry point `C_GrDirectContext_MakeDawn` (dawn.cpp): if the process-wide static device
pointer is null, allocate a fresh device and cache it; then call the overload
of `GrDirectContext::MakeDawn` selected by the nullability of the options
pointer, on the cached device. -/
def C_GrDirectContext_MakeDawn (st : DawnGlobal)
    (options : Option GrContextOptions) :
    Option GrDirectContext × DawnGlobal :=
  let p : Handle × DawnGlobal :=
    match st.device with
    | none => (st.nextHandle,
               { device := some st.nextHandle,
                 nextHandle := st.nextHandle + 1 })
    | some d => (d, st)
  match options with
  | some o => (GrDirectContext.MakeDawnWithOptions p.1 o, p.2)
  | none => (GrDirectContext.MakeDawn p.1, p.2)

/-! ## Concrete instances used by counterexamples and witnesses -/

/-- A Context whose device has been lost: submission fails on it. -/
def ctxLost : Context :=
  { backend := Backend.dawn, device := 1, queue := 1, deviceLost := true,
    insertFails := false, pending := [], owned := [] }

/-- A healthy Context: submission succeeds on it. -/
def ctxOk : Context :=
  { ctxLost with deviceLost := false }

/-! ## Theorems -/

/-- C1, counterexample: `C_Context_submit` does not report submission failure
to the caller. On `ctxLost` the underlying `Context::submit` fails (returns
false) while on `ctxOk` it succeeds, yet the value `C_Context_submit` returns
across the C boundary is identical in the two runs — the entry point returns
void, so the boolean result never reaches the caller. -/
theorem C1_submit_counterexample :
    (Context.submit ctxLost SyncToCpu.kNo).1 = false ∧
    (Context.submit ctxOk SyncToCpu.kNo).1 = true ∧
    (C_Context_submit ctxLost SyncToCpu.kNo).1 =
      (C_Context_submit ctxOk SyncToCpu.kNo).1 := by
  refine ⟨by decide, by decide, rfl⟩

/-- C1, amended: for every Context and every sync mode, `C_Context_submit`
invokes the underlying `Context::submit` (the Context evolves exactly as under
`submit`) but discards its boolean result and returns void, so the returned
value is the same for all inputs and no submission failure — and no
partial-success granularity — is exposed to the caller. -/
theorem C1_submit_discards_result (self : Context) (syncToCpu : SyncToCpu) :
    (C_Context_submit self syncToCpu).2 = (Context.submit self syncToCpu).2 ∧
    (C_Context_submit self syncToCpu).1 = () ∧
    (∀ other : Context, ∀ s2 : SyncToCpu,
      (C_Context_submit self syncToCpu).1 = (C_Context_submit other s2).1) :=
  ⟨rfl, rfl, fun _ _ => rfl⟩

/-- C2: `C_Context_insertRecording` transfers ownership of the Recording into
the Context unconditionally — the Recording is appended to the Context's owned
set whether or not the insertion succeeds — and the boolean success flag of
the underlying `Context::insertRecording` is returned unchanged. -/
theorem C2_insertRecording_consumes (self : Context) (recording : Recording) :
    ((C_Context_insertRecording self recording).2).owned =
      self.owned ++ [recording] ∧
    recording ∈ ((C_Context_insertRecording self recording).2).owned ∧
    (C_Context_insertRecording self recording).1 =
      (Context.insertRecording self { fRecording := some recording }).1 := by
  constructor
  · simp only [C_Context_insertRecording, Context.insertRecording]
    by_cases h : self.deviceLost || self.insertFails <;> simp [h]
  · constructor
    · simp only [C_Context_insertRecording, Context.insertRecording]
      by_cases h : self.deviceLost || self.insertFails <;> simp [h]
    · rfl

/-- C4: default construction via `C_TextureInfo_Construct` /
`C_BackendTexture_Construct` leaves the storage holding the default value, on
which the corresponding isValid query returns false; a value produced by a
backend-specific factory call (`TextureInfos::MakeMetal`,
`BackendTextures::MakeMetal`, `BackendTextures::MakeVulkan`) — the only
operations of the bindings that populate these descriptors — satisfies
isValid. -/
theorem C4_construct_invalid_make_valid (ti : Cell TextureInfo)
    (bt : Cell BackendTexture) (texture : Handle) (dimensions : SkISize)
    (info : VulkanTextureInfo) (layout queueFamilyIndex : Nat)
    (image : Handle) (alloc : VulkanAlloc) :
    C_TextureInfo_Construct ti = Cell.init TextureInfo.default ∧
    C_TextureInfo_isValid TextureInfo.default = false ∧
    C_BackendTexture_Construct bt = Cell.init BackendTexture.default ∧
    C_BackendTexture_isValid BackendTexture.default = false ∧
    C_TextureInfo_isValid (TextureInfos.MakeMetal texture) = true ∧
    C_BackendTexture_isValid (BackendTextures.MakeMetal dimensions texture)
      = true ∧
    C_BackendTexture_isValid (BackendTextures.MakeVulkan dimensions info
      layout queueFamilyIndex image alloc) = true :=
  ⟨rfl, rfl, rfl, rfl, rfl, rfl, rfl⟩

/-- C7: `C_MtlBackendContext_Construct` retains the device and queue handles
exactly once each (for distinct handles, each platform reference count rises
by exactly one) and stores them; `C_MtlBackendContext_Destruct` releases each
stored handle exactly once, so Construct immediately followed by Destruct
leaves every handle's platform reference count unchanged. -/
theorem C7_mtl_construct_destruct_balanced (device queue : Handle)
    (w : CFWorld) (h : Handle) (hne : device ≠ queue) :
    ((C_MtlBackendContext_Construct device queue w).2).refCount device =
      w.refCount device + 1 ∧
    ((C_MtlBackendContext_Construct device queue w).2).refCount queue =
      w.refCount queue + 1 ∧
    (C_MtlBackendContext_Construct device queue w).1 =
      { fDevice := some device, fQueue := some queue } ∧
    (C_MtlBackendContext_Destruct
        (C_MtlBackendContext_Construct device queue w).1
        (C_MtlBackendContext_Construct device queue w).2).refCount h =
      w.refCount h := by
  have hne2 : ¬queue = device := fun e => hne e.symm
  refine ⟨?_, ?_, rfl, ?_⟩
  · simp [C_MtlBackendContext_Construct, CFRetain, hne, hne2]
  · simp [C_MtlBackendContext_Construct, CFRetain, hne, hne2]
  · simp only [C_MtlBackendContext_Construct, C_MtlBackendContext_Destruct,
      releaseOpt, CFRetain, CFRelease]
    by_cases h1 : h = device <;> by_cases h2 : h = queue <;>
      simp only [h1, h2, hne, hne2, if_true, if_false, if_pos, if_neg,
        not_false_iff] <;> omega

/-- C7 witness: the theorem instantiated at device 1, queue 2, the world with
no outstanding references, observed at handle 1. -/
theorem C7_mtl_construct_destruct_balanced_witness :
    ((C_MtlBackendContext_Construct 1 2 (CFWorld.mk fun _ => 0)).2).refCount 1 =
      (CFWorld.mk fun _ => (0 : Int)).refCount 1 + 1 ∧
    ((C_MtlBackendContext_Construct 1 2 (CFWorld.mk fun _ => 0)).2).refCount 2 =
      (CFWorld.mk fun _ => (0 : Int)).refCount 2 + 1 ∧
    (C_MtlBackendContext_Construct 1 2 (CFWorld.mk fun _ => 0)).1 =
      { fDevice := some 1, fQueue := some 2 } ∧
    (C_MtlBackendContext_Destruct
        (C_MtlBackendContext_Construct 1 2 (CFWorld.mk fun _ => 0)).1
        (C_MtlBackendContext_Construct 1 2 (CFWorld.mk fun _ => 0)).2).refCount 1 =
      (CFWorld.mk fun _ => (0 : Int)).refCount 1 :=
  C7_mtl_construct_destruct_balanced 1 2 (CFWorld.mk fun _ => 0) 1
    (by decide)

/-- C10: for every valid BackendTexture and previously unconstructed result
storage, `C_BackendTexture_info` placement-constructs into the result storage
a fresh TextureInfo equal to the BackendTexture's stored descriptor, and
neither `C_BackendTexture_info` nor `C_BackendTexture_dimensions` modifies the
BackendTexture it reads. -/
theorem C10_info_dimensions_readonly (self : BackendTexture)
    (result : Cell TextureInfo) (hvalid : C_BackendTexture_isValid self = true)
    (hres : result = Cell.uninit) :
    C_BackendTexture_info self result = (Cell.init self.info, self) ∧
    (C_BackendTexture_info self result).2 = self ∧
    C_BackendTexture_dimensions self = (self.dimensions, self) ∧
    (C_BackendTexture_dimensions self).2 = self :=
  ⟨rfl, rfl, rfl, rfl⟩

/-- C10 witness: the theorem instantiated at a valid Metal BackendTexture and
unconstructed result storage. -/
theorem C10_info_dimensions_readonly_witness :
    C_BackendTexture_info (BackendTextures.MakeMetal (SkISize.mk 4 4) 7)
        Cell.uninit =
      (Cell.init (BackendTextures.MakeMetal (SkISize.mk 4 4) 7).info,
       BackendTextures.MakeMetal (SkISize.mk 4 4) 7) ∧
    (C_BackendTexture_info (BackendTextures.MakeMetal (SkISize.mk 4 4) 7)
        Cell.uninit).2 = BackendTextures.MakeMetal (SkISize.mk 4 4) 7 ∧
    C_BackendTexture_dimensions (BackendTextures.MakeMetal (SkISize.mk 4 4) 7)
      = ((BackendTextures.MakeMetal (SkISize.mk 4 4) 7).dimensions,
         BackendTextures.MakeMetal (SkISize.mk 4 4) 7) ∧
    (C_BackendTexture_dimensions
        (BackendTextures.MakeMetal (SkISize.mk 4 4) 7)).2 =
      BackendTextures.MakeMetal (SkISize.mk 4 4) 7 :=
  C10_info_dimensions_readonly (BackendTextures.MakeMetal (SkISize.mk 4 4) 7)
    Cell.uninit (by decide) rfl

/-- The Recorder produced by `makeRecorderWith` on `ctxOk` with tunable 3;
used by the C3 witness. -/
def recorderOk : Recorder :=
  { contextDevice := 1, options := RecorderOptions.mk 3, failed := false,
    commands := [], nextRecordingId := 0 }

/-- C3: `C_Context_makeRecorder` with a null options pointer invokes the
Context's default-options `makeRecorder()` overload without ever dereferencing
the null pointer, and with a non-null pointer invokes the overload taking
those options; in both cases the result is the owning pointer returned by the
underlying overload — null exactly on creation failure (lost device) — and any
returned Recorder is bound to that Context and carries the selected options. -/
theorem C3_makeRecorder_dispatch (self : Context) (o : RecorderOptions) :
    C_Context_makeRecorder self none = Context.makeRecorder self ∧
    C_Context_makeRecorder self (some o) = Context.makeRecorderWith self o ∧
    (C_Context_makeRecorder self (some o) = none ↔ self.deviceLost = true) ∧
    (C_Context_makeRecorder self none = none ↔ self.deviceLost = true) ∧
    (∀ r, C_Context_makeRecorder self (some o) = some r →
      r.contextDevice = self.device ∧ r.options = o) ∧
    (∀ r, C_Context_makeRecorder self none = some r →
      r.contextDevice = self.device ∧
      r.options = RecorderOptions.default) := by
  refine ⟨rfl, rfl, ?_, ?_, ?_, ?_⟩ <;>
    by_cases hd : self.deviceLost <;>
      simp [C_Context_makeRecorder, Context.makeRecorder,
        Context.makeRecorderWith, hd]

/-- C3 witness: on the healthy Context `ctxOk` with options tunable 3, the
returned Recorder is bound to `ctxOk` and carries those options. -/
theorem C3_makeRecorder_dispatch_witness :
    recorderOk.contextDevice = ctxOk.device ∧
    recorderOk.options = RecorderOptions.mk 3 :=
  (C3_makeRecorder_dispatch ctxOk (RecorderOptions.mk 3)).2.2.2.2.1
    recorderOk (by decide)

/-- C5: every factory entry point returns null exactly when the underlying
creation fails, and the owning pointer produced by the underlying factory on
success: `C_Context_MakeMetal` / `C_Context_MakeVulkan` forward the factory
result unchanged (null precisely when a required platform handle is missing,
the modelled cannot-initialize condition); `C_GrDirectContext_MakeDawn` on a
cached device returns exactly the result of the selected `MakeDawn` overload
(which the model never fails); `C_Context_makeRecorder` is null precisely
when the underlying creation fails (lost device); `C_Recorder_snap` is null
precisely when the underlying snap fails. All the embedded entry points are
total functions: no exception crosses the boundary. -/
theorem C5_factories_null_iff_failure (mbc : MtlBackendContext)
    (vbc : VulkanBackendContext) (co : ContextOptions) (st : DawnGlobal)
    (g : GrContextOptions) (d : Handle) (self : Context)
    (ro : Option RecorderOptions) (r : Recorder) :
    C_Context_MakeMetal mbc co = ContextFactory.MakeMetal mbc co ∧
    ((ContextFactory.MakeMetal mbc co).isNone =
      (mbc.fDevice.isNone || mbc.fQueue.isNone)) ∧
    C_Context_MakeVulkan vbc co = ContextFactory.MakeVulkan vbc co ∧
    ((ContextFactory.MakeVulkan vbc co).isNone =
      (vbc.fDevice.isNone || vbc.fQueue.isNone)) ∧
    (st.device = some d →
      (C_GrDirectContext_MakeDawn st (some g)).1 =
        GrDirectContext.MakeDawnWithOptions d g ∧
      (C_GrDirectContext_MakeDawn st none).1 = GrDirectContext.MakeDawn d) ∧
    (GrDirectContext.MakeDawn d).isSome = true ∧
    (C_Context_makeRecorder self ro).isNone = self.deviceLost ∧
    ((C_Recorder_snap r).1).isNone = r.failed := by
  refine ⟨rfl, ?_, rfl, ?_, ?_, rfl, ?_, ?_⟩
  · rcases mbc with ⟨fd, fq⟩
    cases fd <;> cases fq <;> rfl
  · rcases vbc with ⟨fd, fq⟩
    cases fd <;> cases fq <;> rfl
  · intro hd
    constructor <;> simp [C_GrDirectContext_MakeDawn, hd]
  · cases ro <;>
      by_cases hd : self.deviceLost <;>
        simp [C_Context_makeRecorder, Context.makeRecorder,
          Context.makeRecorderWith, hd]
  · by_cases hfail : r.failed <;>
      simp [C_Recorder_snap, Recorder.snap, hfail]

/-- C5 witness: with the static Dawn device already cached as handle 5, both
overload dispatches of `C_GrDirectContext_MakeDawn` return the underlying
factory result on that cached device. -/
theorem C5_factories_null_iff_failure_witness :
    (C_GrDirectContext_MakeDawn (DawnGlobal.mk (some 5) 6)
        (some (GrContextOptions.mk 0))).1 =
      GrDirectContext.MakeDawnWithOptions 5 (GrContextOptions.mk 0) ∧
    (C_GrDirectContext_MakeDawn (DawnGlobal.mk (some 5) 6) none).1 =
      GrDirectContext.MakeDawn 5 :=
  (C5_factories_null_iff_failure (MtlBackendContext.mk none none)
    (VulkanBackendContext.mk none none) (ContextOptions.mk 0)
    (DawnGlobal.mk (some 5) 6) (GrContextOptions.mk 0) 5 ctxOk none
    recorderOk).2.2.2.2.1 (by decide)

/-- C6: `C_GrDirectContext_MakeDawn` lazily allocates the process-wide device
on its first invocation (from a state whose static pointer is null it installs
a fresh handle and bumps the allocator), reuses the cached handle on every
invocation that finds one — leaving the process state completely unchanged and
returning a context built on the cached handle — and after any invocation a
further invocation never changes the process state again (the handle is never
reassigned and there is no teardown path in the model). -/
theorem C6_dawn_lazy_singleton (st : DawnGlobal)
    (o o2 : Option GrContextOptions) (h : Handle) :
    (st.device = none →
      ((C_GrDirectContext_MakeDawn st o).2).device = some st.nextHandle ∧
      ((C_GrDirectContext_MakeDawn st o).2).nextHandle = st.nextHandle + 1) ∧
    (st.device = some h →
      (C_GrDirectContext_MakeDawn st o).2 = st ∧
      (C_GrDirectContext_MakeDawn st o).1 =
        (match o with
         | some g => GrDirectContext.MakeDawnWithOptions h g
         | none => GrDirectContext.MakeDawn h)) ∧
    (C_GrDirectContext_MakeDawn
        ((C_GrDirectContext_MakeDawn st o).2) o2).2 =
      (C_GrDirectContext_MakeDawn st o).2 := by
  refine ⟨?_, ?_, ?_⟩
  · intro hd
    cases o <;> simp [C_GrDirectContext_MakeDawn, hd]
  · intro hd
    cases o <;> simp [C_GrDirectContext_MakeDawn, hd]
  · rcases st with ⟨dev, nh⟩
    cases dev <;> cases o <;> cases o2 <;> rfl

/-- C6 witness: from the process start state the first call installs the
freshly allocated device handle; from a state whose device is already cached
a call leaves the process state unchanged. -/
theorem C6_dawn_lazy_singleton_witness :
    ((C_GrDirectContext_MakeDawn DawnGlobal.initial none).2).device =
      some DawnGlobal.initial.nextHandle ∧
    (C_GrDirectContext_MakeDawn (DawnGlobal.mk (some 1) 2) none).2 =
      DawnGlobal.mk (some 1) 2 :=
  ⟨((C6_dawn_lazy_singleton DawnGlobal.initial none none 0).1 rfl).1,
   ((C6_dawn_lazy_singleton (DawnGlobal.mk (some 1) 2) none none 1).2.1
      rfl).1⟩

/-- C8: the backend-specific Make operations on caller-held descriptors
(`C_TextureInfo_MakeMetal`, `C_BackendTexture_MakeMetal`,
`C_BackendTexture_MakeVulkan`) require the target to already be constructed
(on unconstructed storage the assignment is undefined — modelled `none`) and
overwrite the constructed target in place via assignment: the same cell ends
up holding exactly the factory value while the resource the old value held is
released — exactly once, the reference count of the released handle drops by
one and no other handle's count changes, and nothing is released when the old
value held no resource. No new storage is allocated: the result is the
caller's cell, re-initialized. -/
theorem C8_make_requires_constructed_overwrites (oldT : TextureInfo)
    (oldB oldB2 : BackendTexture) (texture : Handle) (dimensions : SkISize)
    (info : VulkanTextureInfo) (layout queueFamilyIndex : Nat)
    (image : Handle) (alloc : VulkanAlloc) (w : CFWorld) (h : Handle) :
    C_TextureInfo_MakeMetal Cell.uninit texture w = none ∧
    C_BackendTexture_MakeMetal Cell.uninit dimensions texture w = none ∧
    C_BackendTexture_MakeVulkan Cell.uninit dimensions info layout
      queueFamilyIndex image alloc w = none ∧
    C_TextureInfo_MakeMetal (Cell.init oldT) texture w =
      some (Cell.init (TextureInfos.MakeMetal texture),
            releaseOpt oldT.resource w) ∧
    C_BackendTexture_MakeMetal (Cell.init oldB) dimensions texture w =
      some (Cell.init (BackendTextures.MakeMetal dimensions texture),
            releaseOpt oldB.resource w) ∧
    C_BackendTexture_MakeVulkan (Cell.init oldB2) dimensions info layout
      queueFamilyIndex image alloc w =
      some (Cell.init (BackendTextures.MakeVulkan dimensions info layout
              queueFamilyIndex image alloc),
            releaseOpt oldB2.resource w) ∧
    (releaseOpt (some h) w).refCount h = w.refCount h - 1 ∧
    (∀ g, g ≠ h → (releaseOpt (some h) w).refCount g = w.refCount g) ∧
    releaseOpt none w = w := by
  refine ⟨rfl, rfl, rfl, rfl, rfl, rfl, ?_, ?_, rfl⟩
  · simp [releaseOpt, CFRelease]
  · intro g hg
    simp [releaseOpt, CFRelease, hg]

/-- C8 witness: releasing handle 3 exactly once leaves the count of the
distinct handle 2 unchanged, in the world with one reference on every
handle. -/
theorem C8_make_requires_constructed_overwrites_witness :
    (releaseOpt (some 3) (CFWorld.mk fun _ => 1)).refCount 2 =
      (CFWorld.mk fun _ => (1 : Int)).refCount 2 :=
  (C8_make_requires_constructed_overwrites TextureInfo.default
    BackendTexture.default BackendTexture.default 7 (SkISize.mk 4 4)
    (VulkanTextureInfo.mk 1 false 0 0 0 0 0 0 0) 0 0 9 (VulkanAlloc.mk 0)
    (CFWorld.mk fun _ => 1) 3).2.2.2.2.2.2.2.1 2 (by decide)

/-- Call `C_Recorder_snap` N times in sequence on a Recorder, collecting the
returned Recording pointers and the final Recorder state. -/
def snapN : Nat → Recorder → List (Option Recording) × Recorder
  | 0, r => ([], r)
  | Nat.succ n, r =>
    let p := C_Recorder_snap r
    let q := snapN n p.2
    (p.1 :: q.1, q.2)

/-- On a healthy Recorder, N snaps return the Recordings with the N
consecutive fresh ids starting at the Recorder's counter, keep the Recorder
healthy, advance the counter by N, and leave the command buffer empty (or
untouched when N = 0). -/
theorem snapN_characterization (n : Nat) :
    ∀ r : Recorder, r.failed = false →
    ((snapN n r).1).map (fun o => Option.map Recording.id o) =
      (List.range' r.nextRecordingId n).map some ∧
    ((snapN n r).2).failed = false ∧
    ((snapN n r).2).nextRecordingId = r.nextRecordingId + n ∧
    ((snapN n r).2).commands = (if n = 0 then r.commands else []) := by
  induction n with
  | zero =>
    intro r hf
    simp [snapN, hf]
  | succ n ih =>
    intro r hf
    obtain ⟨h1, h2, h3, h4⟩ := ih
      (Recorder.mk r.contextDevice r.options false []
        (r.nextRecordingId + 1)) rfl
    have hstep : snapN (n + 1) r =
        (some (Recording.mk r.nextRecordingId r.commands) ::
          (snapN n (Recorder.mk r.contextDevice r.options false []
            (r.nextRecordingId + 1))).1,
         (snapN n (Recorder.mk r.contextDevice r.options false []
            (r.nextRecordingId + 1))).2) := by
      simp [snapN, C_Recorder_snap, Recorder.snap, hf]
    rw [hstep]
    refine ⟨?_, h2, ?_, ?_⟩
    · rw [List.map_cons, List.range'_succ, List.map_cons]
      exact congrArg₂ List.cons rfl h1
    · rw [h3]
      show r.nextRecordingId + 1 + n = r.nextRecordingId + (n + 1)
      omega
    · rw [if_neg (Nat.succ_ne_zero n)]
      rcases Nat.eq_zero_or_pos n with hn | hn
      · subst hn
        rfl
      · have hne : n ≠ 0 := Nat.pos_iff_ne_zero.mp hn
        rw [if_neg hne] at h4
        exact h4

/-- C9: for every healthy Recorder and every N ≥ 1, calling `C_Recorder_snap`
N times produces N Recording pointers, all non-null and pairwise distinct —
the first snap captures everything recorded since creation — and after the N
snaps the Recorder is reset to Idle (its command buffer is empty), is still
healthy, and a further snap succeeds, so the Recorder remains usable. -/
theorem C9_snap_distinct_reusable (n : Nat) (r : Recorder) (hn : 0 < n)
    (hf : r.failed = false) :
    (snapN n r).1.length = n ∧
    (∀ o ∈ (snapN n r).1, o.isSome = true) ∧
    (snapN n r).1.Nodup ∧
    (C_Recorder_snap r).1 =
      some (Recording.mk r.nextRecordingId r.commands) ∧
    ((C_Recorder_snap r).2).commands = [] ∧
    ((snapN n r).2).commands = [] ∧
    ((snapN n r).2).failed = false ∧
    ((C_Recorder_snap (snapN n r).2).1).isSome = true := by
  obtain ⟨h1, h2, h3, h4⟩ := snapN_characterization n r hf
  have hlen : (snapN n r).1.length = n := by
    have := congrArg List.length h1
    simpa using this
  refine ⟨hlen, ?_, ?_, ?_, ?_, ?_, h2, ?_⟩
  · intro o ho
    have hmem : Option.map Recording.id o ∈
        ((snapN n r).1).map (fun x => Option.map Recording.id x) :=
      List.mem_map_of_mem (fun x => Option.map Recording.id x) ho
    rw [h1] at hmem
    obtain ⟨a, _, ha⟩ := List.mem_map.1 hmem
    cases o with
    | none => simp at ha
    | some rec => rfl
  · have hnodup : (((snapN n r).1).map
        (fun o => Option.map Recording.id o)).Nodup := by
      rw [h1]
      exact (List.nodup_range' _ _).map (Option.some_injective Nat)
    exact List.Nodup.of_map _ hnodup
  · simp [C_Recorder_snap, Recorder.snap, hf]
  · simp [C_Recorder_snap, Recorder.snap, hf]
  · have hne : n ≠ 0 := Nat.pos_iff_ne_zero.mp hn
    simpa [hne] using h4
  · simp [C_Recorder_snap, Recorder.snap, h2]

/-- C9 witness: three snaps of a healthy Recorder holding two recorded
commands give three non-null, pairwise distinct Recordings and leave the
Recorder idle and usable. -/
theorem C9_snap_distinct_reusable_witness :
    (snapN 3 (Recorder.mk 1 (RecorderOptions.mk 0) false [5, 7] 0)).1.length
      = 3 ∧
    (∀ o ∈ (snapN 3 (Recorder.mk 1 (RecorderOptions.mk 0) false [5, 7] 0)).1,
      o.isSome = true) ∧
    (snapN 3 (Recorder.mk 1 (RecorderOptions.mk 0) false [5, 7] 0)).1.Nodup ∧
    (C_Recorder_snap (Recorder.mk 1 (RecorderOptions.mk 0) false [5, 7] 0)).1
      = some (Recording.mk
          (Recorder.mk 1 (RecorderOptions.mk 0) false [5, 7] 0).nextRecordingId
          (Recorder.mk 1 (RecorderOptions.mk 0) false [5, 7] 0).commands) ∧
    ((C_Recorder_snap
        (Recorder.mk 1 (RecorderOptions.mk 0) false [5, 7] 0)).2).commands
      = [] ∧
    ((snapN 3 (Recorder.mk 1 (RecorderOptions.mk 0) false [5, 7] 0)).2).commands
      = [] ∧
    ((snapN 3 (Recorder.mk 1 (RecorderOptions.mk 0) false [5, 7] 0)).2).failed
      = false ∧
    ((C_Recorder_snap
        (snapN 3 (Recorder.mk 1 (RecorderOptions.mk 0) false [5, 7] 0)).2).1).isSome
      = true :=
  C9_snap_distinct_reusable 3
    (Recorder.mk 1 (RecorderOptions.mk 0) false [5, 7] 0) (by decide)
    (by decide)

end Graphite
